import Mathlib

/-!
Verification of the AD-HTC biogas plant calculation pipeline
(biogas_engine.py, boiler_engine.py, power_cycle_engine.py, steam_tables.py).

Conventions of the embedding:
- Python floats are modelled as exact rationals.
- Python float division with a variable denominator raises ZeroDivisionError
  when the denominator is zero; it is modelled by pydiv, which returns none
  exactly in that case. Division by a nonzero numeric literal stays plain.
- Python dict and tuple results are modelled as structures with the same
  field names.
- Python bool results are modelled as Bool.
- numpy.interp over a strictly increasing key array is piecewise linear
  interpolation; it is modelled by the structurally recursive tableLookup,
  which also reproduces the explicit clamping branches of the source.
-/

/-- Model of Python float division: none exactly when the denominator is zero,
in which case the source would raise ZeroDivisionError. -/
def pydiv (a b : ℚ) : Option ℚ := if b = 0 then none else some (a / b)

/-! ## biogas_engine.py : constants and pure operations -/

def SECONDS_PER_DAY : ℚ := 86400

def VS_FRACTION : ℚ := 80 / 100

def SMY : ℚ := 35 / 100

def CH4_DENSITY_KG_M3 : ℚ := 657 / 1000

def PEAK_TO_AVG_FACTOR : ℚ := 3 / 2

def HIGH_SOLIDS_WARNING_PCT : ℚ := 12

/-- Result record of water_dilution_mass_balance (the source returns a
4-tuple (added_water_kg_s, total_slurry_kg_s, final_total_solids_pct,
high_solids_warning)). -/
structure DilutionResult where
  added_water_kg_s : ℚ
  total_slurry_kg_s : ℚ
  final_total_solids_pct : ℚ
  high_solids_warning : Bool
deriving DecidableEq

/-- water_dilution_mass_balance from src/biogas_engine.py lines 26-43.
The early return at total_slurry_kg_s <= 0 avoids the division; in the main
branch the division by total_slurry_kg_s is modelled through pydiv. -/
def water_dilution_mass_balance (user_biomass_mass_kg_s dry_matter_pct added_water_ratio : ℚ) :
    Option DilutionResult :=
  let added_water_kg_s := user_biomass_mass_kg_s * added_water_ratio
  let total_slurry_kg_s := user_biomass_mass_kg_s + added_water_kg_s
  if total_slurry_kg_s ≤ 0 then
    some ⟨0, user_biomass_mass_kg_s, dry_matter_pct,
      decide (dry_matter_pct > HIGH_SOLIDS_WARNING_PCT)⟩
  else
    let dry_matter_mass_kg_s := user_biomass_mass_kg_s * (dry_matter_pct / 100)
    (pydiv dry_matter_mass_kg_s total_slurry_kg_s).map fun q =>
      let final_total_solids_pct := q * 100
      ⟨added_water_kg_s, total_slurry_kg_s, final_total_solids_pct,
        decide (final_total_solids_pct > HIGH_SOLIDS_WARNING_PCT)⟩

/-- partition_feedstock from src/biogas_engine.py lines 53-60: split the raw
feedstock by moisture fraction into the AD stream and the HTC stream. -/
def partition_feedstock (total_mass_flow_kg_s moisture_content_pct : ℚ) : ℚ × ℚ :=
  let f_moisture := moisture_content_pct / 100
  (total_mass_flow_kg_s * f_moisture, total_mass_flow_kg_s * (1 - f_moisture))

/-! ## boiler_engine.py : saturation tables and clamped linear interpolation -/

def CP_WATER_KJ_KG_K : ℚ := 418 / 100

def LHV_METHANE_KJ_KG : ℚ := 50000

/-- STEAM_H_TABLE from src/boiler_engine.py lines 13-19: saturated steam
(vapor) enthalpy h_g (kJ/kg) keyed by temperature (deg C). -/
def STEAM_H_TABLE : List (ℚ × ℚ) :=
  [(100, 2676), (160, 2758), (180, 2778), (200, 2793), (250, 2801)]

/-- STEAM_H_F_TABLE from src/boiler_engine.py lines 21-27: saturated liquid
enthalpy h_f (kJ/kg) at the same temperatures. -/
def STEAM_H_F_TABLE : List (ℚ × ℚ) :=
  [(100, 419), (160, 675), (180, 763), (200, 852), (250, 1085)]

/-- Linear interpolation between two table points p and q, evaluated at x.
This is the formula numpy.interp applies on the segment [p.1, q.1]. -/
def linSeg (p q : ℚ × ℚ) (x : ℚ) : ℚ :=
  p.2 + (x - p.1) * (q.2 - p.2) / (q.1 - p.1)

/-- Walk the segments of the table: on the first segment whose right key
bounds x, interpolate linearly; past the last key, return the last value
(the source returns enthalpies[-1] when T_C >= temps[-1]). -/
def interpSegs : ℚ × ℚ → List (ℚ × ℚ) → ℚ → ℚ
  | p, [], _ => p.2
  | p, q :: rest, x => if x ≤ q.1 then linSeg p q x else interpSegs q rest x

/-- Clamped piecewise-linear table lookup: the shared shape of
h_saturated_steam_kj_kg and h_saturated_liquid_kj_kg in src/boiler_engine.py
lines 32-51 (clamp below the first key, clamp above the last key,
numpy.interp in between). -/
def tableLookup : List (ℚ × ℚ) → ℚ → ℚ
  | [], _ => 0
  | p :: rest, x => if x ≤ p.1 then p.2 else interpSegs p rest x

/-- Last table row, starting from a first row p (temps[-1], enthalpies[-1]). -/
def lastPair (p : ℚ × ℚ) : List (ℚ × ℚ) → ℚ × ℚ
  | [] => p
  | q :: rest => lastPair q rest

/-- A table is sorted when its keys strictly increase and its values are
non-decreasing row to row. Both built-in tables satisfy it. -/
def sortedTable : List (ℚ × ℚ) → Prop
  | [] => True
  | [_] => True
  | p :: q :: rest => p.1 < q.1 ∧ p.2 ≤ q.2 ∧ sortedTable (q :: rest)

/-- h_saturated_steam_kj_kg from src/boiler_engine.py lines 32-40. -/
def h_saturated_steam_kj_kg (T_C : ℚ) : ℚ := tableLookup STEAM_H_TABLE T_C

/-- h_saturated_liquid_kj_kg from src/boiler_engine.py lines 43-51. -/
def h_saturated_liquid_kj_kg (T_C : ℚ) : ℚ := tableLookup STEAM_H_F_TABLE T_C

/-- SteamTableLookup.lookup_enthalpy from src/steam_tables.py lines 32-44.
The CSV reference file saturated_by_pressure_V1.4.csv is not part of src/,
so the two sorted columns (liquid enthalpy and enthalpy of vaporization,
keyed by temperature) enter as parameters; the lookup applies to each column
the same clamped linear interpolation as the built-in tables. -/
def lookup_enthalpy (hfTable hfgTable : List (ℚ × ℚ)) (target_temp : ℚ) : ℚ × ℚ :=
  (tableLookup hfTable target_temp, tableLookup hfgTable target_temp)

/-! ## boiler_engine.py : energies, methane demand and daily split -/

/-- boiler_startup_energy_kj from src/boiler_engine.py lines 59-76.
Returns (Q_sensible_kj, Q_latent_kj, Q_total_kj). -/
def boiler_startup_energy_kj (boiler_water_capacity_kg T_steam_C T_ambient_C : ℚ) :
    ℚ × ℚ × ℚ :=
  let m := boiler_water_capacity_kg
  let Q_sensible := m * CP_WATER_KJ_KG_K * (T_steam_C - T_ambient_C)
  let h_steam := h_saturated_steam_kj_kg T_steam_C
  let h_f := h_saturated_liquid_kj_kg T_steam_C
  let Q_latent := m * (h_steam - h_f)
  (Q_sensible, Q_latent, Q_sensible + Q_latent)

/-- methane_mass_needed_kg from src/boiler_engine.py lines 79-83: one-time
methane mass to supply Q_startup, guarded at non-positive efficiency. -/
def methane_mass_needed_kg (Q_startup_kj eta_boiler_pct lhv_kj_kg : ℚ) : Option ℚ :=
  if eta_boiler_pct ≤ 0 then some 0
  else pydiv Q_startup_kj (lhv_kj_kg * (eta_boiler_pct / 100))

/-- time_to_steam_minutes from src/boiler_engine.py lines 86-102. -/
def time_to_steam_minutes (Q_startup_kj methane_kg_per_day eta_boiler_pct lhv_kj_kg : ℚ) :
    Option ℚ :=
  if methane_kg_per_day ≤ 0 ∨ eta_boiler_pct ≤ 0 then some 0
  else
    let methane_kg_s := methane_kg_per_day / 86400
    let power_kw := methane_kg_s * lhv_kj_kg * (eta_boiler_pct / 100)
    if power_kw ≤ 0 then some 0
    else (pydiv Q_startup_kj power_kw).map fun t => t / 60

/-- Result record of partition_methane_per_day (the source returns a dict
with these keys). -/
structure PartitionResult where
  boiler_kg_per_day : ℚ
  collector_kg_per_day : ℚ
  boiler_pct : ℚ
  collector_pct : ℚ
deriving DecidableEq

/-- partition_methane_per_day from src/boiler_engine.py lines 105-129: split
daily methane between boiler and collector; 0/100 split when no production. -/
def partition_methane_per_day (methane_per_day_kg methane_needed_kg : ℚ) :
    Option PartitionResult :=
  if methane_per_day_kg ≤ 0 then some ⟨0, 0, 0, 100⟩
  else
    let boiler_kg := min methane_needed_kg methane_per_day_kg
    let collector_kg := methane_per_day_kg - boiler_kg
    (pydiv boiler_kg methane_per_day_kg).bind fun bp =>
      (pydiv collector_kg methane_per_day_kg).map fun cp =>
        ⟨boiler_kg, collector_kg, bp * 100, cp * 100⟩

/-- Result record of the continuous-flow methane split. -/
structure FlowPartitionResult where
  boiler_kg : ℚ
  collector_kg : ℚ
  collector_pct : ℚ
  insufficient : Bool
deriving DecidableEq

/-- Modelled from the spec: the continuous-flow boiler mode (spec sections
4.2 and 7, and Scenario C) is repository code that is not under src/; only
the static-charge mode is. Per the spec it splits the hourly methane
production between boiler demand and collector like the static mode (0/100
split when production is non-positive) and flags insufficient when demand
exceeds production by more than 1 percent. -/
def partition_methane_flow (total_methane_kg_hr demand_kg_hr : ℚ) : FlowPartitionResult :=
  let insufficient := decide (demand_kg_hr > total_methane_kg_hr * (101 / 100))
  if total_methane_kg_hr ≤ 0 then
    ⟨0, 0, 100, insufficient⟩
  else
    let boiler_kg := min demand_kg_hr total_methane_kg_hr
    let collector_kg := total_methane_kg_hr - boiler_kg
    ⟨boiler_kg, collector_kg, collector_kg / total_methane_kg_hr * 100, insufficient⟩

/-! ## power_cycle_engine.py -/

def cp_air : ℚ := 1005 / 1000

def cp_gas : ℚ := 115 / 100

/-- Result record of power_cycle_logic (the source returns a dict with these
keys, plus echoes of two inputs). -/
structure PowerCycleResult where
  T2_C : ℚ
  T3_C : ℚ
  T4_C : ℚ
  W_Comp_kW : ℚ
  W_Turb_kW : ℚ
  Net_Power_kWe : ℚ
  Thermal_Input_kW : ℚ
deriving DecidableEq

/-- power_cycle_logic from src/power_cycle_engine.py lines 9-63.
The two float powers pressure_ratio ** ((gamma_air - 1) / gamma_air) and
pressure_ratio ** ((gamma_gas - 1) / gamma_gas) are irrational for the inputs
of interest, so they enter the rational embedding as the parameters prPowAir
and prPowGas. The three divisions of the source (by eta_compressor, by
air_mass_flow_kg_s * cp_gas, and by the gas-side power term) are unguarded in
the source and are modelled through pydiv. -/
def power_cycle_logic (biogas_vol_m3 volatile_mass_kg air_mass_flow_kg_s : ℚ)
    (prPowAir prPowGas eta_compressor eta_turbine eta_generator t_ambient_c : ℚ) :
    Option PowerCycleResult :=
  let T_ambient_K := t_ambient_c + 27315 / 100
  let T2_s_K := T_ambient_K * prPowAir
  (pydiv (T2_s_K - T_ambient_K) eta_compressor).bind fun d2 =>
    let T2_actual_K := T_ambient_K + d2
    let W_comp_kW := air_mass_flow_kg_s * cp_air * (T2_actual_K - T_ambient_K)
    let Q_dot_fuel_kW := biogas_vol_m3 * 21500 / 1440 + volatile_mass_kg * 4000 / 60
    (pydiv Q_dot_fuel_kW (air_mass_flow_kg_s * cp_gas)).bind fun d3 =>
      let T3_actual_K := T2_actual_K + d3
      (pydiv T3_actual_K prPowGas).map fun T4_s_K =>
        let T4_actual_K := T3_actual_K - eta_turbine * (T3_actual_K - T4_s_K)
        let W_turbine_kW := air_mass_flow_kg_s * cp_gas * (T3_actual_K - T4_actual_K)
        ⟨T2_actual_K - 27315 / 100, T3_actual_K - 27315 / 100, T4_actual_K - 27315 / 100,
          W_comp_kW, W_turbine_kW, (W_turbine_kW - W_comp_kW) * eta_generator, Q_dot_fuel_kW⟩

/-! ## Shared lemmas on clamped linear interpolation -/

/-- Interpolation on one segment is monotone when the segment rises. -/
theorem linSeg_mono {p q : ℚ × ℚ} {x y : ℚ} (hk : p.1 < q.1) (hv : p.2 ≤ q.2)
    (hxy : x ≤ y) : linSeg p q x ≤ linSeg p q y := by
  unfold linSeg
  have hd : (0 : ℚ) < q.1 - p.1 := by linarith
  have h1 : (x - p.1) * (q.2 - p.2) ≤ (y - p.1) * (q.2 - p.2) :=
    mul_le_mul_of_nonneg_right (by linarith) (by linarith)
  have h2 : (x - p.1) * (q.2 - p.2) / (q.1 - p.1) ≤ (y - p.1) * (q.2 - p.2) / (q.1 - p.1) :=
    (div_le_div_iff_of_pos_right hd).mpr h1
  linarith

/-- Interpolation at the left key returns the left value. -/
theorem linSeg_left (p q : ℚ × ℚ) : linSeg p q p.1 = p.2 := by
  unfold linSeg
  ring

/-- Interpolation at the right key returns the right value. -/
theorem linSeg_right {p q : ℚ × ℚ} (hk : p.1 < q.1) : linSeg p q q.1 = q.2 := by
  unfold linSeg
  have hd : q.1 - p.1 ≠ 0 := by intro h0; have := hk; nlinarith
  field_simp

/-- The value at the head row is a lower bound of the interpolation to the
right of the head key. -/
theorem interpSegs_lower {p : ℚ × ℚ} {rest : List (ℚ × ℚ)} {x : ℚ}
    (hs : sortedTable (p :: rest)) (hx : p.1 ≤ x) : p.2 ≤ interpSegs p rest x := by
  induction rest generalizing p with
  | nil => simp [interpSegs]
  | cons q rest ih =>
    obtain ⟨hk, hv, hs'⟩ := hs
    simp only [interpSegs]
    split_ifs with hxq
    · calc p.2 = linSeg p q p.1 := (linSeg_left p q).symm
        _ ≤ linSeg p q x := linSeg_mono hk hv hx
    · exact le_trans hv (ih hs' (by linarith))

/-- Segment interpolation is monotone over a sorted table. -/
theorem interpSegs_mono {p : ℚ × ℚ} {rest : List (ℚ × ℚ)} {x y : ℚ}
    (hs : sortedTable (p :: rest)) (hxy : x ≤ y) :
    interpSegs p rest x ≤ interpSegs p rest y := by
  induction rest generalizing p with
  | nil => simp [interpSegs]
  | cons q rest ih =>
    obtain ⟨hk, hv, hs'⟩ := hs
    simp only [interpSegs]
    split_ifs with hx hy hy
    · exact linSeg_mono hk hv hxy
    · calc linSeg p q x ≤ linSeg p q q.1 := linSeg_mono hk hv hx
        _ = q.2 := linSeg_right hk
        _ ≤ interpSegs q rest y := interpSegs_lower hs' (by linarith)
    · exact absurd (le_trans hxy hy) hx
    · exact ih hs'

/-- The head key is at most the last key of a sorted table. -/
theorem lastPair_key_le {p : ℚ × ℚ} {rest : List (ℚ × ℚ)}
    (hs : sortedTable (p :: rest)) : p.1 ≤ (lastPair p rest).1 := by
  induction rest generalizing p with
  | nil => simp [lastPair]
  | cons q rest ih =>
    obtain ⟨hk, hv, hs'⟩ := hs
    show p.1 ≤ (lastPair q rest).1
    exact le_trans (le_of_lt hk) (ih hs')

/-- At or beyond the last key, segment interpolation returns the last value. -/
theorem interpSegs_clamp_high {p : ℚ × ℚ} {rest : List (ℚ × ℚ)} {x : ℚ}
    (hs : sortedTable (p :: rest)) (hx : (lastPair p rest).1 ≤ x) :
    interpSegs p rest x = (lastPair p rest).2 := by
  induction rest generalizing p with
  | nil => simp [interpSegs, lastPair]
  | cons q rest ih =>
    obtain ⟨hk, hv, hs'⟩ := hs
    have hx' : (lastPair q rest).1 ≤ x := hx
    show (if x ≤ q.1 then linSeg p q x else interpSegs q rest x) = (lastPair q rest).2
    split_ifs with hxq
    · have hq : q.1 ≤ (lastPair q rest).1 := lastPair_key_le hs'
      have hxeq : x = q.1 := le_antisymm hxq (le_trans hq hx')
      cases rest with
      | nil =>
        show linSeg p q x = q.2
        rw [hxeq]
        exact linSeg_right hk
      | cons r rest2 =>
        obtain ⟨hk2, hv2, hs2⟩ := hs'
        have hr : r.1 ≤ (lastPair r rest2).1 := lastPair_key_le hs2
        have hx2 : (lastPair r rest2).1 ≤ x := hx'
        exact absurd (by linarith : r.1 ≤ q.1) (not_le.mpr hk2)
    · exact ih hs' hx'

/-- Every key of the tail of a sorted table exceeds the head key. -/
theorem mem_key_gt {p : ℚ × ℚ} {rest : List (ℚ × ℚ)} {t v : ℚ}
    (hs : sortedTable (p :: rest)) (hmem : (t, v) ∈ rest) : p.1 < t := by
  induction rest generalizing p with
  | nil => cases hmem
  | cons q rest ih =>
    obtain ⟨hk, hv, hs'⟩ := hs
    rcases List.mem_cons.mp hmem with h | h
    · subst h
      exact hk
    · exact lt_trans hk (ih hs' h)

/-- Segment interpolation hits a tail table row exactly. -/
theorem interpSegs_mem {p : ℚ × ℚ} {rest : List (ℚ × ℚ)} {t v : ℚ}
    (hs : sortedTable (p :: rest)) (hmem : (t, v) ∈ rest) :
    interpSegs p rest t = v := by
  induction rest generalizing p with
  | nil => cases hmem
  | cons q rest ih =>
    obtain ⟨hk, hv, hs'⟩ := hs
    rcases List.mem_cons.mp hmem with h | h
    · subst h
      show (if t ≤ (t, v).1 then linSeg p (t, v) t else interpSegs (t, v) rest t) = v
      have hle : t ≤ ((t, v) : ℚ × ℚ).1 := le_refl t
      rw [if_pos hle]
      exact linSeg_right hk
    · have ht : q.1 < t := mem_key_gt hs' h
      show (if t ≤ q.1 then linSeg p q t else interpSegs q rest t) = v
      rw [if_neg (by linarith)]
      exact ih hs' h

/-- tableLookup is monotone non-decreasing over a sorted table. -/
theorem tableLookup_mono {tbl : List (ℚ × ℚ)} {x y : ℚ}
    (hs : sortedTable tbl) (hxy : x ≤ y) : tableLookup tbl x ≤ tableLookup tbl y := by
  cases tbl with
  | nil => simp [tableLookup]
  | cons p rest =>
    simp only [tableLookup]
    split_ifs with hx hy hy
    · exact le_refl _
    · exact interpSegs_lower hs (by linarith)
    · exact absurd (le_trans hxy hy) hx
    · exact interpSegs_mono hs hxy

/-- Below the first key, tableLookup clamps to the lookup at the first key. -/
theorem tableLookup_clamp_low {p : ℚ × ℚ} {rest : List (ℚ × ℚ)} {x : ℚ} (hx : x ≤ p.1) :
    tableLookup (p :: rest) x = tableLookup (p :: rest) p.1 := by
  simp [tableLookup, hx]

/-- Above the last key, tableLookup clamps to the lookup at the last key. -/
theorem tableLookup_clamp_high {p : ℚ × ℚ} {rest : List (ℚ × ℚ)} {x : ℚ}
    (hs : sortedTable (p :: rest)) (hx : (lastPair p rest).1 ≤ x) :
    tableLookup (p :: rest) x = tableLookup (p :: rest) (lastPair p rest).1 := by
  cases rest with
  | nil =>
    show (if x ≤ p.1 then p.2 else interpSegs p [] x)
      = (if p.1 ≤ p.1 then p.2 else interpSegs p [] p.1)
    rw [if_pos (le_refl p.1)]
    split_ifs with h
    · rfl
    · simp [interpSegs]
  | cons q rest =>
    have hparts := hs
    obtain ⟨hk, hv, hs'⟩ := hparts
    have hq : q.1 ≤ (lastPair q rest).1 := lastPair_key_le hs'
    have hx' : (lastPair q rest).1 ≤ x := hx
    have hnx : ¬ x ≤ p.1 := by push_neg; linarith
    have hnl : ¬ (lastPair p (q :: rest)).1 ≤ p.1 := by
      show ¬ (lastPair q rest).1 ≤ p.1
      push_neg
      linarith
    simp only [tableLookup]
    rw [if_neg hnx, if_neg hnl]
    rw [interpSegs_clamp_high hs hx, interpSegs_clamp_high hs (le_refl _)]

/-- tableLookup returns tabulated values exactly at tabulated keys. -/
theorem tableLookup_mem {tbl : List (ℚ × ℚ)} {t v : ℚ}
    (hs : sortedTable tbl) (hmem : (t, v) ∈ tbl) : tableLookup tbl t = v := by
  cases tbl with
  | nil => cases hmem
  | cons p rest =>
    rcases List.mem_cons.mp hmem with h | h
    · subst h
      show (if t ≤ (t, v).1 then (t, v).2 else interpSegs (t, v) rest t) = v
      have hle : t ≤ ((t, v) : ℚ × ℚ).1 := le_refl t
      rw [if_pos hle]
    · have ht : p.1 < t := mem_key_gt hs h
      show (if t ≤ p.1 then p.2 else interpSegs p rest t) = v
      rw [if_neg (by linarith)]
      exact interpSegs_mem hs h

/-! ## Theorems for claims C1, C5, C9 -/

/-- C1: for every FeedstockInput with mass_flow_kg_s >= 0 and moisture_pct in
[0,100], partition_feedstock returns a pair whose components sum exactly to
mass_flow_kg_s (exact arithmetic; hence within any floating tolerance). -/
theorem C1_partition_feedstock_sum (mass_flow moisture_pct : ℚ)
    (hm : 0 ≤ mass_flow) (h0 : 0 ≤ moisture_pct) (h1 : moisture_pct ≤ 100) :
    (partition_feedstock mass_flow moisture_pct).1
      + (partition_feedstock mass_flow moisture_pct).2 = mass_flow := by
  unfold partition_feedstock
  ring

/-- Witness for C1 at mass_flow = 5, moisture_pct = 40. -/
theorem C1_partition_feedstock_sum_witness :
    (partition_feedstock 5 40).1 + (partition_feedstock 5 40).2 = 5 :=
  C1_partition_feedstock_sum 5 40 (by norm_num) (by norm_num) (by norm_num)

/-- C5: for every result of water_dilution_mass_balance, the
high_solids_warning flag is true iff the returned final_total_solids_pct is
strictly greater than 12; this also holds in the degenerate branch
(total slurry non-positive), where the returned percentage is the dry-matter
percentage. -/
theorem C5_high_solids_warning_iff (m d r : ℚ) (res : DilutionResult)
    (h : water_dilution_mass_balance m d r = some res) :
    (res.high_solids_warning = true ↔ res.final_total_solids_pct > 12)
    ∧ (m + m * r ≤ 0 → res.final_total_solids_pct = d) := by
  unfold water_dilution_mass_balance pydiv at h
  by_cases hts : m + m * r ≤ 0
  · simp only [hts, if_pos, Option.some.injEq] at h
    subst h
    refine ⟨?_, fun _ => rfl⟩
    simp [HIGH_SOLIDS_WARNING_PCT, decide_eq_true_iff]
  · simp only [hts, if_neg, if_false] at h
    have hne : m + m * r ≠ 0 := by
      intro h0
      exact hts (le_of_eq h0)
    simp only [hne, if_neg, if_false, Option.map_some', Option.some.injEq] at h
    subst h
    refine ⟨?_, fun hc => absurd hc hts⟩
    simp [HIGH_SOLIDS_WARNING_PCT, decide_eq_true_iff]

/-- Witness for C5 at input (0, 20, 0): the degenerate branch returns the
dry-matter percentage 20 and a raised warning. -/
theorem C5_high_solids_warning_iff_witness :
    ((true : Bool) = true ↔ (20 : ℚ) > 12) ∧ ((0 : ℚ) + 0 * 0 ≤ 0 → (20 : ℚ) = 20) :=
  C5_high_solids_warning_iff 0 20 0 ⟨0, 0, 20, true⟩
    (by norm_num [water_dilution_mass_balance, HIGH_SOLIDS_WARNING_PCT])

/-- C9: whenever total_slurry_kg_s = m + m*ratio is non-positive,
water_dilution_mass_balance succeeds (no division by zero) and returns zero
added water, the biomass flow as total slurry, and the unmodified dry-matter
percentage as final_total_solids_pct. -/
theorem C9_dilution_degenerate (m d r : ℚ) (h : m + m * r ≤ 0) :
    water_dilution_mass_balance m d r
      = some ⟨0, m, d, decide (d > HIGH_SOLIDS_WARNING_PCT)⟩ := by
  unfold water_dilution_mass_balance
  simp only [h, if_pos]

/-- Witness for C9 at input (-2, 30, 1): total slurry is -4 <= 0. -/
theorem C9_dilution_degenerate_witness :
    water_dilution_mass_balance (-2) 30 1
      = some ⟨0, -2, 30, decide ((30 : ℚ) > HIGH_SOLIDS_WARNING_PCT)⟩ :=
  C9_dilution_degenerate (-2) 30 1 (by norm_num)

/-! ## Theorems for claims C2, C8 (methane split) -/

/-- C2: with positive daily production, partition_methane_per_day gives the
boiler min(needed, available), hence at most the production, and the two
percentages sum to 100 exactly; with non-positive production it returns the
0/100 split. -/
theorem C2_partition_methane (mpd mn : ℚ) :
    (0 < mpd → ∃ res, partition_methane_per_day mpd mn = some res
      ∧ res.boiler_kg_per_day = min mn mpd
      ∧ res.boiler_kg_per_day ≤ mpd
      ∧ res.boiler_pct + res.collector_pct = 100)
    ∧ (mpd ≤ 0 → partition_methane_per_day mpd mn = some ⟨0, 0, 0, 100⟩) := by
  constructor
  · intro hpos
    have hne : mpd ≠ 0 := ne_of_gt hpos
    have hnle : ¬ mpd ≤ 0 := not_le.mpr hpos
    refine ⟨⟨min mn mpd, mpd - min mn mpd, min mn mpd / mpd * 100,
      (mpd - min mn mpd) / mpd * 100⟩, ?_, rfl, min_le_right _ _, ?_⟩
    · simp [partition_methane_per_day, pydiv, hnle, hne]
    · field_simp
      ring
  · intro hle
    simp [partition_methane_per_day, hle]

/-- Witness for C2 at (2, 3) for the positive branch and (0, 5) for the
degenerate branch. -/
theorem C2_partition_methane_witness :
    (∃ res, partition_methane_per_day 2 3 = some res
      ∧ res.boiler_kg_per_day = min 3 2
      ∧ res.boiler_kg_per_day ≤ 2
      ∧ res.boiler_pct + res.collector_pct = 100)
    ∧ partition_methane_per_day 0 5 = some ⟨0, 0, 0, 100⟩ :=
  ⟨(C2_partition_methane 2 3).1 (by norm_num), (C2_partition_methane 0 5).2 (by norm_num)⟩

/-- C8: with zero daily methane production, the static split returns
boiler 0, collector 0 and collector_pct 100, and the continuous-flow mode
additionally reports insufficient exactly when the demand is positive. -/
theorem C8_zero_production_split (mn : ℚ) :
    partition_methane_per_day 0 mn = some ⟨0, 0, 0, 100⟩
    ∧ (partition_methane_flow 0 mn).boiler_kg = 0
    ∧ (partition_methane_flow 0 mn).collector_kg = 0
    ∧ (partition_methane_flow 0 mn).collector_pct = 100
    ∧ ((partition_methane_flow 0 mn).insufficient = true ↔ 0 < mn) := by
  refine ⟨?_, ?_, ?_, ?_, ?_⟩ <;>
    simp [partition_methane_per_day, partition_methane_flow, decide_eq_true_iff]

/-! ## Theorems for claim C3 (totality) -/

/-- Counterexample to C3 as stated: power_cycle_logic is one of the core
engine entry points, a zero efficiency fraction is inside its declared
numeric domain, and at eta_compressor = 0 its first division is unguarded,
so the call raises (modelled as none) instead of returning a value. -/
theorem C3_counterexample :
    power_cycle_logic 0 0 (1/2) 2 2 0 (17/20) (47/50) 25 = none := by
  simp [power_cycle_logic, pydiv]

/-- C3 amended: the kinetics and boiler operations are total over their
numeric domain (every division is guarded, except that methane_mass_needed_kg
needs a positive heating value), but power_cycle_logic is total only where
eta_compressor, air_mass_flow_kg_s and the turbine pressure power are all
nonzero; its divisions are unguarded and raise at zero. -/
theorem C3_totality_amended :
    (∀ m d r, (water_dilution_mass_balance m d r).isSome)
    ∧ (∀ mpd mn, (partition_methane_per_day mpd mn).isSome)
    ∧ (∀ q eta lhv, 0 < lhv → (methane_mass_needed_kg q eta lhv).isSome)
    ∧ (∀ q mkd eta lhv, (time_to_steam_minutes q mkd eta lhv).isSome)
    ∧ (∀ b v a prA prG ec et eg t, ec ≠ 0 → a ≠ 0 → prG ≠ 0 →
        (power_cycle_logic b v a prA prG ec et eg t).isSome) := by
  refine ⟨?_, ?_, ?_, ?_, ?_⟩
  · intro m d r
    by_cases h1 : m + m * r ≤ 0
    · simp [water_dilution_mass_balance, h1]
    · have hne : m + m * r ≠ 0 := fun h0 => h1 (le_of_eq h0)
      simp [water_dilution_mass_balance, pydiv, h1, hne]
  · intro mpd mn
    by_cases h1 : mpd ≤ 0
    · simp [partition_methane_per_day, h1]
    · have hne : mpd ≠ 0 := fun h0 => h1 (le_of_eq h0)
      simp [partition_methane_per_day, pydiv, h1, hne]
  · intro q eta lhv hlhv
    by_cases h1 : eta ≤ 0
    · simp [methane_mass_needed_kg, h1]
    · have hpos : (0:ℚ) < lhv * (eta / 100) := by
        push_neg at h1
        positivity
      simp [methane_mass_needed_kg, pydiv, h1, ne_of_gt hpos]
  · intro q mkd eta lhv
    by_cases h1 : mkd ≤ 0 ∨ eta ≤ 0
    · simp [time_to_steam_minutes, h1]
    · by_cases h2 : mkd / 86400 * lhv * (eta / 100) ≤ 0
      · simp [time_to_steam_minutes, h1, h2]
      · have hne : mkd / 86400 * lhv * (eta / 100) ≠ 0 := fun h0 => h2 (le_of_eq h0)
        simp [time_to_steam_minutes, pydiv, h1, h2, hne]
  · intro b v a prA prG ec et eg t hec ha hpG
    have hag : a * cp_gas ≠ 0 := mul_ne_zero ha (by norm_num [cp_gas])
    simp [power_cycle_logic, pydiv, hec, hag, hpG]

/-- Witness for C3 amended at concrete inputs in each component. -/
theorem C3_totality_amended_witness :
    (water_dilution_mass_balance 1 50 1).isSome
    ∧ (partition_methane_per_day 5 2).isSome
    ∧ (methane_mass_needed_kg 1000 85 50000).isSome
    ∧ (time_to_steam_minutes 1000 4 85 50000).isSome
    ∧ (power_cycle_logic 0 0 (1/2) (193/100) (177/100) (3/4) (17/20) (47/50) 25).isSome :=
  ⟨C3_totality_amended.1 1 50 1,
   C3_totality_amended.2.1 5 2,
   C3_totality_amended.2.2.1 1000 85 50000 (by norm_num),
   C3_totality_amended.2.2.2.1 1000 4 85 50000,
   C3_totality_amended.2.2.2.2 0 0 (1/2) (193/100) (177/100) (3/4) (17/20) (47/50) 25
     (by norm_num) (by norm_num) (by norm_num)⟩

/-! ## Theorem for claim C4 (boiler Scenario B) -/

/-- C4: at water capacity 200 kg, steam temperature 180 C and ambient 25 C,
the startup energy splits into 129580 kJ sensible and 403000 kJ latent
(2778 and 763 are exactly the tabulated values at 180 C), totalling
532580 kJ, and at 85 percent efficiency the methane mass needed is
532580 / 42500, which lies strictly between 12.53 and 12.54 kg. -/
theorem C4_scenario_b :
    boiler_startup_energy_kj 200 180 25 = (129580, 403000, 532580)
    ∧ methane_mass_needed_kg 532580 85 50000 = some (532580 / 42500)
    ∧ (1253 / 100 : ℚ) < 532580 / 42500 ∧ (532580 / 42500 : ℚ) < 1254 / 100 := by
  refine ⟨?_, ?_, by norm_num, by norm_num⟩
  · norm_num [boiler_startup_energy_kj, h_saturated_steam_kj_kg, h_saturated_liquid_kj_kg,
      tableLookup, interpSegs, linSeg, STEAM_H_TABLE, STEAM_H_F_TABLE, CP_WATER_KJ_KG_K]
  · norm_num [methane_mass_needed_kg, pydiv]

/-! ## Theorem for claim C6 (saturation-table lookup) -/

/-- C6: over any sorted table (in particular the two built-in tables, and
the two CSV columns behind SteamTableLookup.lookup_enthalpy, which enter as
parameters because the CSV file is not under src/), the clamped linear
lookup is monotone non-decreasing in temperature, returns tabulated values
exactly at tabulated keys, and clamps below the first key and above the last
key to the lookups at those keys. -/
theorem C6_saturation_lookup_props
    (tbl tbl2 : List (ℚ × ℚ)) (hs : sortedTable tbl) (hs2 : sortedTable tbl2)
    (x y : ℚ) (hxy : x ≤ y) (t v : ℚ) (hmem : (t, v) ∈ tbl)
    (p : ℚ × ℚ) (rest : List (ℚ × ℚ)) (htbl : tbl = p :: rest)
    (z w : ℚ) (hz : z ≤ p.1) (hw : (lastPair p rest).1 ≤ w) :
    tableLookup tbl x ≤ tableLookup tbl y
    ∧ tableLookup tbl t = v
    ∧ tableLookup tbl z = tableLookup tbl p.1
    ∧ tableLookup tbl w = tableLookup tbl (lastPair p rest).1
    ∧ h_saturated_steam_kj_kg x ≤ h_saturated_steam_kj_kg y
    ∧ h_saturated_liquid_kj_kg x ≤ h_saturated_liquid_kj_kg y
    ∧ (lookup_enthalpy tbl tbl2 x).1 ≤ (lookup_enthalpy tbl tbl2 y).1
    ∧ (lookup_enthalpy tbl tbl2 x).2 ≤ (lookup_enthalpy tbl tbl2 y).2 := by
  subst htbl
  simp only [h_saturated_steam_kj_kg, h_saturated_liquid_kj_kg, lookup_enthalpy]
  refine ⟨tableLookup_mono hs hxy, tableLookup_mem hs hmem,
    tableLookup_clamp_low hz, tableLookup_clamp_high hs hw,
    tableLookup_mono ?_ hxy, tableLookup_mono ?_ hxy,
    tableLookup_mono hs hxy, tableLookup_mono hs2 hxy⟩
  · norm_num [sortedTable, STEAM_H_TABLE]
  · norm_num [sortedTable, STEAM_H_F_TABLE]

/-- Witness for C6 on the built-in steam tables: x = 150, y = 170,
tabulated point (200, 2793), clamp inputs 80 (below 100) and 300
(above 250). -/
theorem C6_saturation_lookup_props_witness :
    tableLookup STEAM_H_TABLE 150 ≤ tableLookup STEAM_H_TABLE 170
    ∧ tableLookup STEAM_H_TABLE 200 = 2793
    ∧ tableLookup STEAM_H_TABLE 80 = tableLookup STEAM_H_TABLE 100
    ∧ tableLookup STEAM_H_TABLE 300 = tableLookup STEAM_H_TABLE 250
    ∧ h_saturated_steam_kj_kg 150 ≤ h_saturated_steam_kj_kg 170
    ∧ h_saturated_liquid_kj_kg 150 ≤ h_saturated_liquid_kj_kg 170
    ∧ (lookup_enthalpy STEAM_H_TABLE STEAM_H_F_TABLE 150).1
        ≤ (lookup_enthalpy STEAM_H_TABLE STEAM_H_F_TABLE 170).1
    ∧ (lookup_enthalpy STEAM_H_TABLE STEAM_H_F_TABLE 150).2
        ≤ (lookup_enthalpy STEAM_H_TABLE STEAM_H_F_TABLE 170).2 := by
  have h := C6_saturation_lookup_props STEAM_H_TABLE STEAM_H_F_TABLE
    (by norm_num [sortedTable, STEAM_H_TABLE])
    (by norm_num [sortedTable, STEAM_H_F_TABLE])
    150 170 (by norm_num) 200 2793 (by norm_num [STEAM_H_TABLE])
    (100, 2676) [(160, 2758), (180, 2778), (200, 2793), (250, 2801)] rfl
    80 300 (by norm_num) (by norm_num [lastPair])
  simpa [lastPair] using h

/-! ## Theorem for claim C10 (no non-negativity clamp on boiler outputs) -/

/-- C10: boiler outputs are not clamped at zero: with a positive water
charge and a steam target far enough below ambient that the sensible deficit
outweighs the (clamped, positive) latent term, the sensible and total
startup energies are negative, and the methane mass needed at any positive
efficiency is negative as well. -/
theorem C10_negative_boiler_outputs (m Ts Ta eta : ℚ) (hm : 0 < m) (hTs : Ts < Ta)
    (hdom : CP_WATER_KJ_KG_K * (Ts - Ta)
      + (h_saturated_steam_kj_kg Ts - h_saturated_liquid_kj_kg Ts) < 0)
    (heta : 0 < eta) :
    (boiler_startup_energy_kj m Ts Ta).1 < 0
    ∧ (boiler_startup_energy_kj m Ts Ta).2.2 < 0
    ∧ ∃ q, methane_mass_needed_kg (boiler_startup_energy_kj m Ts Ta).2.2 eta
        LHV_METHANE_KJ_KG = some q ∧ q < 0 := by
  have hcp : (0:ℚ) < CP_WATER_KJ_KG_K := by norm_num [CP_WATER_KJ_KG_K]
  have h1 : (boiler_startup_energy_kj m Ts Ta).1 = m * CP_WATER_KJ_KG_K * (Ts - Ta) := rfl
  have h2 : (boiler_startup_energy_kj m Ts Ta).2.2
      = m * CP_WATER_KJ_KG_K * (Ts - Ta)
        + m * (h_saturated_steam_kj_kg Ts - h_saturated_liquid_kj_kg Ts) := rfl
  have hQs : m * CP_WATER_KJ_KG_K * (Ts - Ta) < 0 :=
    mul_neg_of_pos_of_neg (mul_pos hm hcp) (by linarith)
  have hQt : m * CP_WATER_KJ_KG_K * (Ts - Ta)
      + m * (h_saturated_steam_kj_kg Ts - h_saturated_liquid_kj_kg Ts) < 0 := by
    nlinarith [mul_neg_of_pos_of_neg hm hdom]
  refine ⟨h1 ▸ hQs, h2 ▸ hQt, ?_⟩
  have hden : (0:ℚ) < LHV_METHANE_KJ_KG * (eta / 100) := by
    norm_num [LHV_METHANE_KJ_KG]
    positivity
  have hnle : ¬ eta ≤ 0 := not_le.mpr heta
  refine ⟨(boiler_startup_energy_kj m Ts Ta).2.2 / (LHV_METHANE_KJ_KG * (eta / 100)), ?_, ?_⟩
  · simp [methane_mass_needed_kg, pydiv, hnle, ne_of_gt hden]
  · rw [h2]
    exact div_neg_of_neg_of_pos hQt hden

/-- Witness for C10 at (200, -600, 25, 85): both table lookups clamp to the
100 C row, the sensible deficit is -522500 kJ and the latent gain only
451400 kJ. -/
theorem C10_negative_boiler_outputs_witness :
    (boiler_startup_energy_kj 200 (-600) 25).1 < 0
    ∧ (boiler_startup_energy_kj 200 (-600) 25).2.2 < 0
    ∧ ∃ q, methane_mass_needed_kg (boiler_startup_energy_kj 200 (-600) 25).2.2 85
        LHV_METHANE_KJ_KG = some q ∧ q < 0 :=
  C10_negative_boiler_outputs 200 (-600) 25 85 (by norm_num) (by norm_num)
    (by norm_num [CP_WATER_KJ_KG_K, h_saturated_steam_kj_kg, h_saturated_liquid_kj_kg,
      tableLookup, STEAM_H_TABLE, STEAM_H_F_TABLE])
    (by norm_num)

/-! ## Theorem for claim C7 (power cycle, Scenario D) -/

/-- C7: in general Net_Power_kWe = (W_Turb_kW - W_Comp_kW) * eta_generator
for every successful evaluation, and in Scenario D (air 0.5 kg/s, pressure
ratio 10, efficiencies 0.75 / 0.85 / 0.94, ambient 25 C, zero fuel) the
combustion stage adds nothing (T3_C = T2_C) and the net electrical power is
strictly negative, returned as a value rather than raised. The two float
powers of pressure ratio 10 enter as parameters prA and prG constrained to
intervals that contain their true values 10 ^ (2/7) = 1.9307... and
10 ^ (33/133) = 1.7707... -/
theorem C7_power_cycle (prA prG : ℚ)
    (hA1 : 193/100 ≤ prA) (hA2 : prA ≤ 194/100)
    (hG1 : 177/100 ≤ prG) (hG2 : prG ≤ 178/100) :
    (∀ b v a pA pG ec et eg t res,
        power_cycle_logic b v a pA pG ec et eg t = some res →
        res.Net_Power_kWe = (res.W_Turb_kW - res.W_Comp_kW) * eg)
    ∧ (∃ res, power_cycle_logic 0 0 (1/2) prA prG (3/4) (17/20) (47/50) 25 = some res
        ∧ res.T3_C = res.T2_C ∧ res.Net_Power_kWe < 0) := by
  constructor
  · intro b v a pA pG ec et eg t res h
    simp only [power_cycle_logic] at h
    rcases Option.bind_eq_some.mp h with ⟨d2, hd2, h2⟩
    rcases Option.bind_eq_some.mp h2 with ⟨d3, hd3, h3⟩
    rcases Option.map_eq_some'.mp h3 with ⟨t4, ht4, h4⟩
    subst h4
    rfl
  · have hprG0 : (0:ℚ) < prG := by linarith
    have hprGne : prG ≠ 0 := ne_of_gt hprG0
    norm_num [power_cycle_logic, pydiv, hprGne, cp_air, cp_gas]
    set T3 := (5963/20 : ℚ) + (5963/20 * prA - 5963/20) / (3/4) with hT3def
    have hT3pos : (0:ℚ) < T3 := by
      rw [hT3def]
      linarith
    have hstep : T3 / (178/100) ≤ T3 / prG :=
      div_le_div_of_nonneg_left (le_of_lt hT3pos) hprG0 hG2
    have hdiv : T3 * (100/178) ≤ T3 / prG := by
      calc T3 * (100/178) = T3 / (178/100) := by ring
        _ ≤ T3 / prG := hstep
    linarith

/-- Witness for C7 at prA = 1.93, prG = 1.77. -/
theorem C7_power_cycle_witness :
    (∀ b v a pA pG ec et eg t res,
        power_cycle_logic b v a pA pG ec et eg t = some res →
        res.Net_Power_kWe = (res.W_Turb_kW - res.W_Comp_kW) * eg)
    ∧ (∃ res, power_cycle_logic 0 0 (1/2) (193/100) (177/100) (3/4) (17/20) (47/50) 25
        = some res ∧ res.T3_C = res.T2_C ∧ res.Net_Power_kWe < 0) :=
  C7_power_cycle (193/100) (177/100) (by norm_num) (by norm_num) (by norm_num) (by norm_num)
